import Mathlib

/-!
Shallow embedding of `llm_handler.py` (module `LLMHandler`): a glue component
that builds prompts for a remote text-generation service, submits them, and
strips markdown code fences from the responses.  Python strings are modelled
as Lean `String`, Python exceptions from the remote call as `Except`, and the
remote service itself (the `google.genai` client, which is external to the
repository) as a function parameter so that it can be stubbed.
-/

set_option maxRecDepth 16384

/-- Whitespace characters stripped by Python's `str.strip()` (the ASCII
whitespace set: space, tab, newline, carriage return, vertical tab, form
feed). -/
def isPyWhitespace (c : Char) : Bool :=
  c == ' ' || c == '\t' || c == '\n' || c == '\r' || c == '\x0B' || c == '\x0C'

/-- Python `str.strip()` on the character list: drop whitespace from the
front, then from the back. -/
def pyStripList (l : List Char) : List Char :=
  ((l.dropWhile isPyWhitespace).reverse.dropWhile isPyWhitespace).reverse

/-- Python `str.strip()`. -/
def pyStrip (s : String) : String :=
  ⟨pyStripList s.data⟩

/-- Python `str.startswith(pre)`. -/
def pyStartsWith (s pre : String) : Bool :=
  pre.data.isPrefixOf s.data

/-- Python `str.endswith(suf)`. -/
def pyEndsWith (s suf : String) : Bool :=
  suf.data.isSuffixOf s.data

/-- The two conditional fence removals of `generate_content`
(src/llm_handler.py lines 114-117) and `fix_code` (lines 149-152):
`if code.startswith("```python"): code = code[9:]` and
`if code.endswith("```"): code = code[:-3]`.  Python `code[9:]` drops the
first nine characters; `code[:-3]` keeps all but the last three. -/
def stripFences (code : String) : String :=
  let code := if pyStartsWith code "```python" then ⟨code.data.drop 9⟩ else code
  if pyEndsWith code "```" then ⟨code.data.take (code.data.length - 3)⟩ else code

/-- The response sanitizer shared verbatim by `generate_content`
(src/llm_handler.py lines 113-119) and `fix_code` (lines 148-155):
`code = response.text.strip()`, the two conditional fence removals, and the
final `return code.strip()`. -/
def sanitize (s : String) : String :=
  pyStrip (stripFences (pyStrip s))

/-- Literal text of the system-prompt f-string (src/llm_handler.py lines
26-99) up to the first `{class_name}` substitution site (the class
declaration requirement, line 47). -/
def sysPromptPre : String :=
  "\n" ++
  "You are a master of educational content creation, combining the skills of a seasoned mathematics professor, a creative scriptwriter, and a professional Manim animator.\n" ++
  "Your mission is to generate a single, complete, and flawless Python script for `manim-voiceover` that produces a short, elegant, and insightful educational video on a user-provided topic.\n" ++
  "\n" ++
  "### Timing and Duration (CRITICAL)\n" ++
  "1.  **Total Duration:** The final video\x27s total runtime MUST be approximately 28 seconds. This is a strict constraint. You must be extremely concise with both the narration and the animations to meet this target. A shorter, high-impact video is the goal.\n" ++
  "\n" ++
  "### The Pedagogical Blueprint\n" ++
  "Your script must tell a clear and compelling story. Follow this narrative structure, keeping the 28-second limit in mind:\n" ++
  "\n" ++
  "1.  **The Hook:** Start with a fascinating question or a surprising fact to capture the viewer\x27s attention. Introduce the concept and state its importance. (Approx. 5 seconds)\n" ++
  "2.  **Foundational Concepts:** Briefly explain any prerequisite knowledge needed to understand the main topic. Assume the viewer is intelligent but may not recall every detail. (Approx. 6 seconds)\n" ++
  "3.  **The Core Idea:** Present the main concept, formula, or definition. Animate its components piece-by-piece as you explain them. (Approx. 7 seconds)\n" ++
  "4.  **The Intuitive Explanation (The \"Why\"):** This is the most crucial part. Use analogies, derivations, or visual proofs to explain *why* the concept is true. Focus on building deep intuition. (This can overlap with the Core Idea)\n" ++
  "5.  **A Key Example or Application:** Showcase the concept in action with a concrete example or a real-world application. This makes the abstract tangible. (Approx. 6 seconds)\n" ++
  "6.  **The Summary:** Conclude with a concise recap of the main takeaway. What is the one thing the viewer should remember? (Approx. 4 seconds)\n" ++
  "\n" ++
  "\n" ++
  "### Technical & Code Requirements (MUST-FOLLOW)\n" ++
  "\n" ++
  "1.  **File Structure:** The entire output must be a single, runnable Python script. Do not include any text, explanations, or markdown outside of the Python code.\n" ++
  "2.  **Class Definition:** The script must contain exactly one class, named `"

/-- Literal text of the system-prompt f-string between the first
`{class_name}` substitution site (line 47) and the second one (the inline
usage example `class {class_name}(VoiceoverScene):`, line 77). -/
def sysPromptMid : String :=
  "`, which MUST inherit from `VoiceoverScene`.\n" ++
  "3.  **Imports:** The script MUST begin with these exact imports:\n" ++
  "    ```python\n" ++
  "    from manim import *\n" ++
  "    from manim_voiceover import VoiceoverScene\n" ++
  "    from manim_voiceover.services.gtts import GTTSService\n" ++
  "    ```\n" ++
  "4.  **Speech Service:** The `construct` method MUST begin by initializing the speech service: `self.set_speech_service(GTTSService(lang=\"en\"))`.\n" ++
  "5.  **Completeness:** The script must be fully functional. Do not use placeholders or comments like `# Add animation here`.\n" ++
  "\n" ++
  "### Visual & Animation Standards\n" ++
  "\n" ++
  "1.  **Aesthetics:** Use a clean, modern aesthetic. Set the background to a dark color, like `self.camera.background_color = \"#2d3c4c\"`.\n" ++
  "2.  **Typography:** Use `MathTex` for all mathematical expressions to ensure high-quality rendering. Use `Text` for all other labels and titles.\n" ++
  "3.  **Clarity & Layout:** Keep the screen uncluttered. Elements must never overlap. Position items thoughtfully using `.to_edge()`, `.shift()`, and `.next_to()`.\n" ++
  "4.  **Clean Transitions:** Fade out objects that are no longer needed using `self.play(FadeOut(object))`. Use `Transform` or `ReplacementTransform` to smoothly evolve from one concept to the next.\n" ++
  "5.  **Renderer Agnostic:** Write simple, robust animation code that is compatible with different Manim backends. Avoid overly complex or experimental features.\n" ++
  "\n" ++
  "### Narration & Pacing (CRITICAL FOR STABILITY)\n" ++
  "\n" ++
  "1.  **Voiceover Blocks:** ALL narration and synchronized animations MUST be inside a `with self.voiceover(text=\"...\") as tracker:` block.\n" ++
  "2.  **Narration Grouping:** To avoid network errors from the `gTTS` service, you MUST group related sentences into larger, paragraph-style `text` strings. **Do not create a new voiceover block for every single sentence.** This is the most common point of failure.\n" ++
  "3.  **Animation Timing:** Use `run_time=tracker.duration` or `run_time=tracker.get_remaining_duration()` within `self.play()` calls inside a voiceover block to ensure animations are perfectly synchronized with the narration.\n" ++
  "\n" ++
  "**Example of Good Structure:**\n" ++
  "```python\n" ++
  "from manim import *\n" ++
  "from manim_voiceover import VoiceoverScene\n" ++
  "from manim_voiceover.services.gtts import GTTSService\n" ++
  "\n" ++
  "class "

/-- Literal text of the system-prompt f-string after the second
`{class_name}` substitution site (line 77) through the end of the
string (line 99). -/
def sysPromptPost : String :=
  "(VoiceoverScene):\n" ++
  "    def construct(self):\n" ++
  "        self.set_speech_service(GTTSService(lang=\"en\"))\n" ++
  "        self.camera.background_color = \"#2d3c4c\"\n" ++
  "\n" ++
  "        # The Hook: Combine narration into a single block.\n" ++
  "        hook_text = \"Have you ever wondered how we can describe the beautiful symmetry of a circle using equations? Let\x27s explore the fundamental formula that defines this perfect shape.\"\n" ++
  "        title = Text(\"The Equation of a Circle\", font_size=48)\n" ++
  "        with self.voiceover(text=hook_text) as tracker:\n" ++
  "            self.play(Write(title), run_time=tracker.duration)\n" ++
  "        self.play(FadeOut(title))\n" ++
  "\n" ++
  "        # The Core Idea\n" ++
  "        core_idea_text = \"The equation of a circle with its center at the origin is given by x-squared plus y-squared equals r-squared.\"\n" ++
  "        formula = MathTex(\"x^2 + y^2 = r^2\").scale(1.5)\n" ++
  "        with self.voiceover(text=core_idea_text) as tracker:\n" ++
  "            self.play(Write(formula), run_time=tracker.duration)\n" ++
  "        \n" ++
  "        self.wait(1)\n" ++
  "        self.play(FadeOut(formula))\n" ++
  "        self.wait(0.5)\n" ++
  "```\n"

/-- The remote text-generation service (the `google.genai` client's
`models.generate_content(model, contents)` call).  It is external to the
repository, so it is modelled abstractly: given a model name and a contents
string it either returns the response text (`Except.ok`) or raises
(`Except.error`), with an arbitrary error type `ε`. -/
structure GenAIClient (ε : Type) where
  generateContent : String → String → Except ε String

/-- The `LLMHandler` class (src/llm_handler.py line 13): it wraps the client
and the fixed model name. -/
structure LLMHandler (ε : Type) where
  client : GenAIClient ε
  model_name : String

/-- The `__init__` constructor (src/llm_handler.py lines 15-22): stores the
client and sets `model_name` to the literal used by the source. -/
def LLMHandler.init (client : GenAIClient ε) : LLMHandler ε :=
  { client := client, model_name := "gemini-flash-latest" }

/-- The `_get_system_prompt` method (src/llm_handler.py lines 24-99): an
f-string splicing `class_name` into two sites of a fixed rubric text. -/
def LLMHandler._get_system_prompt (_self : LLMHandler ε) (class_name : String) : String :=
  sysPromptPre ++ class_name ++ sysPromptMid ++ class_name ++ sysPromptPost

/-- The contents string submitted by `generate_content`
(src/llm_handler.py lines 103-109): the system prompt, a separator, and the
user-request line embedding the topic. -/
def LLMHandler.generate_request (self : LLMHandler ε) (topic class_name : String) : String :=
  let system_prompt := self._get_system_prompt class_name
  let user_prompt := "Generate a Manim script that explains the following topic: \x27" ++ topic ++ "\x27"
  system_prompt ++ "\n\n**User Request:**\n" ++ user_prompt

/-- The `generate_content` method (src/llm_handler.py lines 101-119):
submit the request to the remote model; a raised error propagates
unchanged; a response is sanitized and returned. -/
def LLMHandler.generate_content (self : LLMHandler ε) (topic class_name : String) :
    Except ε String :=
  match self.client.generateContent self.model_name (self.generate_request topic class_name) with
  | Except.error e => Except.error e
  | Except.ok text => Except.ok (sanitize text)

/-- Literal text of the corrective-prompt f-string (src/llm_handler.py
lines 124-140) before the `{broken_code}` substitution site. -/
def fixPromptPre : String :=
  "\nThe following Manim script failed to execute.\n\n**Broken Code:**\n```python\n"

/-- Literal text of the corrective-prompt f-string between the
`{broken_code}` and `{error_message}` substitution sites. -/
def fixPromptMid : String :=
  "\n```\n\n**Error Message:**\n```\n"

/-- Literal text of the corrective-prompt f-string after the
`{error_message}` substitution site. -/
def fixPromptPost : String :=
  "\n```\n\nAnalyze the error message and the code, then provide a corrected, complete, and runnable version of the Python script.\nRefer to the detailed system prompt you were originally given to ensure all pedagogical, technical, and visual standards are met.\nOnly output the raw Python code, with no explanations or markdown.\n"

/-- The corrective prompt built by `fix_code` (src/llm_handler.py lines
124-140): an f-string embedding the broken code and the error message
verbatim between fixed instruction text. -/
def fix_prompt (broken_code error_message : String) : String :=
  fixPromptPre ++ broken_code ++ fixPromptMid ++ error_message ++ fixPromptPost

/-- The `fix_code` method (src/llm_handler.py lines 121-155): submit the
corrective prompt to the same model; a raised error propagates unchanged; a
response is sanitized and returned.  The `print` status lines have no
bearing on the returned value and are not modelled. -/
def LLMHandler.fix_code (self : LLMHandler ε) (broken_code error_message : String) :
    Except ε String :=
  match self.client.generateContent self.model_name (fix_prompt broken_code error_message) with
  | Except.error e => Except.error e
  | Except.ok text => Except.ok (sanitize text)

/-- The warning printed at module load when the key is empty
(src/llm_handler.py line 11). -/
def warning_message : String :=
  "Warning: GOOGLE_API_KEY not found in environment. LLM features may fail."

/-- Observable state after the module-level statements of
src/llm_handler.py run: the credential value bound to `GOOGLE_API_KEY` and
whether the missing-key warning was printed.  Loading always completes (the
module body raises nothing), which the total function `loadModule` models. -/
structure ModuleLoad where
  GOOGLE_API_KEY : String
  warned : Bool
deriving DecidableEq

/-- The module-level statements of src/llm_handler.py (lines 1-11):
`load_dotenv()` populates the process environment `env`, but line 7 binds
`GOOGLE_API_KEY` to the hard-coded literal `""` without consulting `env`;
line 10 warns because the value is falsy. -/
def loadModule (_env : String → Option String) : ModuleLoad :=
  let GOOGLE_API_KEY := ""
  { GOOGLE_API_KEY := GOOGLE_API_KEY, warned := GOOGLE_API_KEY.isEmpty }

/-- Follows the spec's words (sections 6 and 7 and claim C3), for comparison
with `loadModule`: the credential is read from the process environment at
startup, and a warning is surfaced exactly when it is absent. -/
def loadModuleSpec (env : String → Option String) : ModuleLoad :=
  let key := (env "GOOGLE_API_KEY").getD ""
  { GOOGLE_API_KEY := key, warned := key.isEmpty }

/-- "C1": the sanitizer strips a leading "```python" fence and a trailing
"```" fence and trims the surrounding whitespace, so the fenced input
yields exactly "CODE". -/
theorem c1_sanitizer_fence_stripping :
    sanitize "```python\nCODE\n```" = "CODE" := by
  decide

/-- Dropping leading elements satisfying `p` is idempotent. -/
theorem dropWhile_dropWhile (p : Char → Bool) (l : List Char) :
    (l.dropWhile p).dropWhile p = l.dropWhile p := by
  induction l with
  | nil => rfl
  | cons a l ih =>
    by_cases h : p a
    · simp [List.dropWhile_cons, h, ih]
    · simp [List.dropWhile_cons, h]

/-- A prefix of a list from which `dropWhile p` removes nothing is itself
untouched by `dropWhile p`. -/
theorem dropWhile_eq_self_of_prefix (p : Char → Bool) {l₁ l₂ : List Char}
    (hpre : l₁ <+: l₂) (h : l₂.dropWhile p = l₂) : l₁.dropWhile p = l₁ := by
  cases l₁ with
  | nil => rfl
  | cons a t =>
    obtain ⟨r, hr⟩ := hpre
    have ha : p a = false := by
      rcases Bool.eq_false_or_eq_true (p a) with ht | hf
      · exfalso
        rw [← hr, List.cons_append, List.dropWhile_cons, ht] at h
        rw [if_pos rfl] at h
        have hlen : ((t ++ r).dropWhile p).length = (a :: (t ++ r)).length :=
          congrArg List.length h
        have hle : ((t ++ r).dropWhile p).length ≤ (t ++ r).length :=
          (List.dropWhile_suffix p).sublist.length_le
        rw [hlen, List.length_cons] at hle
        omega
      · exact hf
    simp [List.dropWhile_cons, ha]

/-- Python-style two-sided stripping is idempotent (list form). -/
theorem pyStripList_idem (l : List Char) :
    pyStripList (pyStripList l) = pyStripList l := by
  have h1 : (pyStripList l).reverse.dropWhile isPyWhitespace = (pyStripList l).reverse := by
    unfold pyStripList
    rw [List.reverse_reverse]
    exact dropWhile_dropWhile _ _
  have hpre : pyStripList l <+: l.dropWhile isPyWhitespace := by
    rw [← List.reverse_suffix]
    unfold pyStripList
    rw [List.reverse_reverse]
    exact List.dropWhile_suffix _
  have h2 : (pyStripList l).dropWhile isPyWhitespace = pyStripList l :=
    dropWhile_eq_self_of_prefix isPyWhitespace hpre (dropWhile_dropWhile _ _)
  show (((pyStripList l).dropWhile isPyWhitespace).reverse.dropWhile isPyWhitespace).reverse
      = pyStripList l
  rw [h2, h1, List.reverse_reverse]

/-- Python-style two-sided stripping is idempotent. -/
theorem pyStrip_idem (s : String) : pyStrip (pyStrip s) = pyStrip s :=
  congrArg String.mk (pyStripList_idem s.data)

/-- The sanitizer's output is a fixed point of stripping: it carries no
leading or trailing whitespace. -/
theorem sanitize_trimmed (s : String) : pyStrip (sanitize s) = sanitize s :=
  pyStrip_idem (stripFences (pyStrip s))

/-- On an input whose stripped form starts with no "```python" fence and
ends with no "```" fence, the sanitizer only strips whitespace. -/
theorem sanitize_of_clean (s : String)
    (h1 : pyStartsWith (pyStrip s) "```python" = false)
    (h2 : pyEndsWith (pyStrip s) "```" = false) :
    sanitize s = pyStrip s := by
  simp [sanitize, stripFences, h1, h2, pyStrip_idem]

/-- Unfolding of `generate_content` through `Except.map`. -/
theorem generate_content_eq_map (self : LLMHandler ε) (topic class_name : String) :
    self.generate_content topic class_name
      = Except.map sanitize
          (self.client.generateContent self.model_name (self.generate_request topic class_name)) := by
  unfold LLMHandler.generate_content
  cases self.client.generateContent self.model_name (self.generate_request topic class_name) <;> rfl

/-- Unfolding of `fix_code` through `Except.map`. -/
theorem fix_code_eq_map (self : LLMHandler ε) (broken_code error_message : String) :
    self.fix_code broken_code error_message
      = Except.map sanitize
          (self.client.generateContent self.model_name (fix_prompt broken_code error_message)) := by
  unfold LLMHandler.fix_code
  cases self.client.generateContent self.model_name (fix_prompt broken_code error_message) <;> rfl

/-- "C2": with the remote completion call stubbed to return
"```python\nx=1\n```", `generate_content` returns exactly "x=1" for every
topic and class name: it composes the prompt build, the remote call, and
the sanitizer. -/
theorem c2_generate_stub_composition (topic class_name : String) :
    (LLMHandler.init (⟨fun _ _ => Except.ok "```python\nx=1\n```"⟩ : GenAIClient Unit)).generate_content
        topic class_name
      = Except.ok "x=1" :=
  congrArg Except.ok (by decide : sanitize "```python\nx=1\n```" = "x=1")

/-- "C3": the code does not read the credential from the environment: even
when the environment carries a value for GOOGLE_API_KEY, module load binds
the credential to the hard-coded empty literal and surfaces the
missing-key warning, while the spec-modelled load reads the value and does
not warn. -/
theorem c3_credential_not_read_from_environment :
    (loadModule (fun _ => some "sk-test-123")).GOOGLE_API_KEY = ""
    ∧ (loadModule (fun _ => some "sk-test-123")).warned = true
    ∧ (loadModuleSpec (fun _ => some "sk-test-123")).GOOGLE_API_KEY = "sk-test-123"
    ∧ (loadModuleSpec (fun _ => some "sk-test-123")).warned = false :=
  ⟨rfl, rfl, rfl, rfl⟩

/-- "C4": for every class-name string the system prompt is the fixed rubric
with that string substituted at exactly two sites; the first follows the
class-declaration requirement (its preceding text ends in "class, named `")
and the second is the inline usage example (its preceding text ends in
"\nclass " and its following text starts with "(VoiceoverScene):"). -/
theorem c4_prompt_two_substitution_sites (ε : Type) (self : LLMHandler ε) (class_name : String) :
    self._get_system_prompt class_name
      = sysPromptPre ++ class_name ++ sysPromptMid ++ class_name ++ sysPromptPost
    ∧ pyEndsWith sysPromptPre "class, named `" = true
    ∧ pyStartsWith sysPromptMid "`, which MUST inherit from `VoiceoverScene`." = true
    ∧ pyEndsWith sysPromptMid "\nclass " = true
    ∧ pyStartsWith sysPromptPost "(VoiceoverScene):" = true :=
  ⟨rfl, by decide, by decide, by decide, by decide⟩

/-- "C5": the corrective prompt that `fix_code` submits to the remote model
(captured here by a stub that returns its contents argument as the error)
contains the broken code verbatim and the error message verbatim. -/
theorem c5_fix_prompt_contains_inputs (broken_code error_message : String) :
    (LLMHandler.init (⟨fun _ contents => Except.error contents⟩ : GenAIClient String)).fix_code
        broken_code error_message
      = Except.error (fix_prompt broken_code error_message)
    ∧ broken_code.data <:+: (fix_prompt broken_code error_message).data
    ∧ error_message.data <:+: (fix_prompt broken_code error_message).data := by
  refine ⟨rfl, ?_, ?_⟩
  · refine ⟨fixPromptPre.data, (fixPromptMid ++ error_message ++ fixPromptPost).data, ?_⟩
    simp [fix_prompt, String.data_append, List.append_assoc]
  · refine ⟨(fixPromptPre ++ broken_code ++ fixPromptMid).data, fixPromptPost.data, ?_⟩
    simp [fix_prompt, String.data_append, List.append_assoc]

/-- "C6": when the remote completion call raises, both `generate_content`
and `fix_code` return that very error unchanged: no catch, no retry, no
substitute result. -/
theorem c6_remote_failure_propagates (ε : Type) (self : LLMHandler ε)
    (topic class_name broken_code error_message : String) (e : ε)
    (h1 : self.client.generateContent self.model_name (self.generate_request topic class_name)
            = Except.error e)
    (h2 : self.client.generateContent self.model_name (fix_prompt broken_code error_message)
            = Except.error e) :
    self.generate_content topic class_name = Except.error e
    ∧ self.fix_code broken_code error_message = Except.error e := by
  constructor
  · rw [generate_content_eq_map, h1]
    rfl
  · rw [fix_code_eq_map, h2]
    rfl

/-- Witness for "C6" at a concrete failing client and concrete inputs. -/
theorem c6_remote_failure_propagates_witness :
    (LLMHandler.init (⟨fun _ _ => Except.error 7⟩ : GenAIClient Nat)).generate_content
        "circles" "CircleScene" = Except.error 7
    ∧ (LLMHandler.init (⟨fun _ _ => Except.error 7⟩ : GenAIClient Nat)).fix_code
        "x=1/0" "ZeroDivisionError" = Except.error 7 :=
  c6_remote_failure_propagates Nat (LLMHandler.init ⟨fun _ _ => Except.error 7⟩)
    "circles" "CircleScene" "x=1/0" "ZeroDivisionError" 7 rfl rfl

/-- "C7" counterexample: an input that starts with a space and ends with a
space has no leading "```python" marker and no trailing "```" marker in the
claim's literal sense, yet the sanitizer is not idempotent on it, because
its first trim exposes fence markers that the second application then
strips. -/
theorem c7_counterexample :
    pyStartsWith " ```python```python " "```python" = false
    ∧ pyEndsWith " ```python```python " "```" = false
    ∧ sanitize (sanitize " ```python```python ") ≠ sanitize " ```python```python " := by
  decide

/-- "C7" amended: for every input whose whitespace-trimmed form neither
starts with "```python" nor ends with "```", applying the sanitizer twice
yields the same result as applying it once. -/
theorem c7_idempotent_after_trim (s : String)
    (h1 : pyStartsWith (pyStrip s) "```python" = false)
    (h2 : pyEndsWith (pyStrip s) "```" = false) :
    sanitize (sanitize s) = sanitize s := by
  have hs : sanitize s = pyStrip s := sanitize_of_clean s h1 h2
  rw [hs]
  have h1' : pyStartsWith (pyStrip (pyStrip s)) "```python" = false := by
    rw [pyStrip_idem]
    exact h1
  have h2' : pyEndsWith (pyStrip (pyStrip s)) "```" = false := by
    rw [pyStrip_idem]
    exact h2
  rw [sanitize_of_clean _ h1' h2', pyStrip_idem]

/-- Witness for the amended "C7" at the concrete input "x = 2". -/
theorem c7_idempotent_after_trim_witness :
    pyStartsWith (pyStrip "x = 2") "```python" = false
    ∧ pyEndsWith (pyStrip "x = 2") "```" = false
    ∧ sanitize (sanitize "x = 2") = sanitize "x = 2" :=
  ⟨by decide, by decide, c7_idempotent_after_trim "x = 2" (by decide) (by decide)⟩

/-- "C8" counterexample: an input that starts and ends with a space has no
leading "```python" marker and no trailing "```" marker in the claim's
literal sense, yet the sanitizer does not return it merely trimmed: the
first trim exposes both fences and they are stripped away. -/
theorem c8_counterexample :
    pyStartsWith " ```python\nX\n``` " "```python" = false
    ∧ pyEndsWith " ```python\nX\n``` " "```" = false
    ∧ sanitize " ```python\nX\n``` " = "X"
    ∧ pyStrip " ```python\nX\n``` " ≠ "X" := by
  decide

/-- "C8" amended: for every input whose whitespace-trimmed form neither
starts with "```python" nor ends with "```", the sanitizer returns the
input unchanged apart from trimming surrounding whitespace; in particular,
when the input also carries no surrounding whitespace, the output equals
the input exactly. -/
theorem c8_noop_after_trim (s : String)
    (h1 : pyStartsWith (pyStrip s) "```python" = false)
    (h2 : pyEndsWith (pyStrip s) "```" = false) :
    sanitize s = pyStrip s ∧ (pyStrip s = s → sanitize s = s) := by
  have hs : sanitize s = pyStrip s := sanitize_of_clean s h1 h2
  exact ⟨hs, fun h => by rw [hs, h]⟩

/-- Witness for the amended "C8" at the concrete input "print(1)". -/
theorem c8_noop_after_trim_witness :
    pyStartsWith (pyStrip "print(1)") "```python" = false
    ∧ pyEndsWith (pyStrip "print(1)") "```" = false
    ∧ sanitize "print(1)" = pyStrip "print(1)"
    ∧ sanitize "print(1)" = "print(1)" :=
  ⟨by decide, by decide,
   (c8_noop_after_trim "print(1)" (by decide) (by decide)).1,
   (c8_noop_after_trim "print(1)" (by decide) (by decide)).2 (by decide)⟩

/-- "C9": whatever response text the remote call yields, the strings
returned by `generate_content` and by `fix_code` carry no leading or
trailing whitespace (they are fixed points of the trim). -/
theorem c9_outputs_trimmed (ε : Type) (self : LLMHandler ε)
    (topic class_name broken_code error_message out₁ out₂ : String)
    (h1 : self.generate_content topic class_name = Except.ok out₁)
    (h2 : self.fix_code broken_code error_message = Except.ok out₂) :
    pyStrip out₁ = out₁ ∧ pyStrip out₂ = out₂ := by
  constructor
  · rw [generate_content_eq_map] at h1
    cases hc : self.client.generateContent self.model_name
        (self.generate_request topic class_name) with
    | error e =>
      rw [hc] at h1
      exact Except.noConfusion h1
    | ok t =>
      rw [hc] at h1
      have h0 : (Except.ok (sanitize t) : Except ε String) = Except.ok out₁ := h1
      injection h0 with h0
      rw [← h0]
      exact sanitize_trimmed t
  · rw [fix_code_eq_map] at h2
    cases hc : self.client.generateContent self.model_name
        (fix_prompt broken_code error_message) with
    | error e =>
      rw [hc] at h2
      exact Except.noConfusion h2
    | ok t =>
      rw [hc] at h2
      have h0 : (Except.ok (sanitize t) : Except ε String) = Except.ok out₂ := h2
      injection h0 with h0
      rw [← h0]
      exact sanitize_trimmed t

/-- Witness for "C9" at a concrete client whose response carries
surrounding whitespace. -/
theorem c9_outputs_trimmed_witness :
    (LLMHandler.init (⟨fun _ _ => Except.ok " x \n"⟩ : GenAIClient Unit)).generate_content
        "circles" "CircleScene" = Except.ok "x"
    ∧ (LLMHandler.init (⟨fun _ _ => Except.ok " x \n"⟩ : GenAIClient Unit)).fix_code
        "x=1/0" "ZeroDivisionError" = Except.ok "x"
    ∧ (pyStrip "x" = "x" ∧ pyStrip "x" = "x") :=
  ⟨congrArg Except.ok (by decide : sanitize " x \n" = "x"),
   congrArg Except.ok (by decide : sanitize " x \n" = "x"),
   c9_outputs_trimmed Unit (LLMHandler.init ⟨fun _ _ => Except.ok " x \n"⟩)
     "circles" "CircleScene" "x=1/0" "ZeroDivisionError" "x" "x"
     (congrArg Except.ok (by decide : sanitize " x \n" = "x"))
     (congrArg Except.ok (by decide : sanitize " x \n" = "x"))⟩

/-- "C10": the two fence removals are independent exact-literal matches: a
trailing "```" is stripped even without a leading fence; a bare "```" or a
differently tagged fence at the start is kept while the trailing "```" is
still stripped. -/
theorem c10_independent_fence_stripping :
    sanitize "CODE\n```" = "CODE"
    ∧ sanitize "```\nCODE\n```" = "```\nCODE"
    ∧ sanitize "```js\nCODE\n```" = "```js\nCODE" := by
  decide
